import Mathlib

/-!
Shallow embedding of the DisasterSentinel multi-source aggregation core:
the three source adapters (USGS seismic, NOAA weather alerts, OpenWeatherMap
weather conditions), the severity classification rules, the Haversine
distance, and the `getAllDisasters` aggregation pipeline, together with
theorems checking the natural-language specification against this code.

Numeric JS values that only ever meet decidable comparisons (magnitudes,
wind speeds, rainfall, coordinates as stored) are modelled as rationals;
the Haversine distance is modelled over the reals.  Fields of the unified
`Disaster` record that no classification or filtering logic ever reads
(title, description, timestamps, the auxiliary `data` map) are projected
away.  Upstream HTTP calls are modelled by passing the upstream outcome
(a parsed payload or a failure) as an explicit argument; `async` functions
that can reject are modelled with `Except String`.
-/

namespace DisasterSentinel

/-- The `DisasterType` enum from `server/utils/alertUtils.ts`. -/
inductive DisasterType where
  | Earthquake
  | Flood
  | Storm
  | Wildfire
deriving DecidableEq, Repr

/-- The `AlertType` enum from `server/utils/alertUtils.ts`; severity order
Warning > Watch > Advisory. -/
inductive AlertType where
  | Warning
  | Watch
  | Advisory
deriving DecidableEq, Repr

/-- Numeric severity rank (Warning most severe), used to state the spec's
"maximum severity" claims. -/
def AlertType.rank : AlertType → ℕ
  | .Warning => 2
  | .Watch => 1
  | .Advisory => 0

/-- The more severe of two alert levels (the spec's "maximum severity
implied by either"). -/
def maxAlert (a b : AlertType) : AlertType :=
  if AlertType.rank a ≥ AlertType.rank b then a else b

/-- Function `mapTimeRangeToValue` from `server/utils/alertUtils.ts`. -/
def mapTimeRangeToValue (timeRange : String) : String :=
  if timeRange = "1h" ∨ timeRange = "hour" then "hour"
  else if timeRange = "24h" ∨ timeRange = "1d" ∨ timeRange = "1day" then "1day"
  else if timeRange = "7d" ∨ timeRange = "7days" ∨ timeRange = "week" then "7days"
  else if timeRange = "30d" ∨ timeRange = "30days" ∨ timeRange = "month" then "30days"
  else "1day"

/-- Does `hay` start with `needle`?  (Character-list model of JS string
comparison; helper for `String.prototype.includes`.) -/
def startsWithChars : List Char → List Char → Bool
  | [], _ => true
  | _ :: _, [] => false
  | a :: as, b :: bs => (a == b) && startsWithChars as bs

/-- Does `needle` occur as a contiguous substring of `hay`?  (Model of JS
`String.prototype.includes` on exploded strings.) -/
def occursInChars (needle : List Char) : List Char → Bool
  | [] => needle.isEmpty
  | b :: bs => startsWithChars needle (b :: bs) || occursInChars needle bs

/-- JS `s.includes(t)`. -/
def strIncludes (s t : String) : Bool :=
  occursInChars t.toList s.toList

/-- JS `s.toLowerCase()` (ASCII model, mapping over the characters). -/
def strToLower (s : String) : String :=
  ⟨s.toList.map Char.toLower⟩

/-- The unified disaster record (`disasters` row shape in
`shared/schema.ts`), restricted to the fields the aggregation core reads.
The stored string coordinates together with `parseFloat` at use sites are
modelled as optional rationals (`none` = missing/empty). -/
structure Disaster where
  id : String
  disasterType : DisasterType
  alertType : AlertType
  location : String
  latitude : Option ℚ
  longitude : Option ℚ
  source : String
deriving DecidableEq, Repr

/-- Outcome of one upstream HTTP fetch: a parsed payload, or a failure
(network error, non-2xx response or malformed payload — all surface as the
same thrown error in the JS adapters). -/
inductive Upstream (α : Type) where
  | ok (payload : α)
  | fail
deriving DecidableEq, Repr

/-! ## USGS seismic adapter (`server/api/usgs.ts`) -/

/-- Constant `MAGNITUDE_WARNING_THRESHOLD` in `usgs.ts`. -/
def MAGNITUDE_WARNING_THRESHOLD : ℚ := 5
/-- Constant `MAGNITUDE_WATCH_THRESHOLD` in `usgs.ts`. -/
def MAGNITUDE_WATCH_THRESHOLD : ℚ := 4

/-- The fields of a `USGSFeature` the adapter reads. -/
structure USGSFeature where
  id : String
  mag : ℚ
  place : String
  tsunami : ℤ
  /-- Triple `[longitude, latitude, depth]`. -/
  coordinates : ℚ × ℚ × ℚ
deriving DecidableEq, Repr

/-- A `USGSResponse`, restricted to its `features`. -/
structure USGSResponse where
  features : List USGSFeature
deriving DecidableEq, Repr

/-- Per-feature body of the `map` in `mapUSGSResponseToDisasters`. -/
def usgsFeatureToDisaster (feature : USGSFeature) : Disaster :=
  let alertType : AlertType :=
    if feature.mag ≥ MAGNITUDE_WARNING_THRESHOLD then .Warning
    else if feature.mag ≥ MAGNITUDE_WATCH_THRESHOLD then .Watch
    else .Advisory
  { id := feature.id
    disasterType := .Earthquake
    alertType := alertType
    location := feature.place
    latitude := some feature.coordinates.2.1
    longitude := some feature.coordinates.1
    source := "USGS" }

/-- Function `mapUSGSResponseToDisasters` from `usgs.ts`. -/
def mapUSGSResponseToDisasters (data : USGSResponse) : List Disaster :=
  data.features.map usgsFeatureToDisaster

/-- Function `fetchEarthquakeData` from `usgs.ts`: the time range only selects which
upstream endpoint is queried (already folded into the upstream outcome
argument); on an upstream failure the catch block rethrows, so the
returned promise rejects. -/
def fetchEarthquakeData (_timeRange : String) (resp : Upstream USGSResponse) :
    Except String (List Disaster) :=
  match resp with
  | .ok r => .ok (mapUSGSResponseToDisasters r)
  | .fail => .error "Failed to fetch earthquake data"

/-! ## NOAA weather-alert adapter (`server/api/noaa.ts`) -/

/-- A GeoJSON geometry as the NOAA adapter discriminates it: the code
branches on `geometry.type` and falls through (leaving the `(0,0)`
defaults) for any other type. -/
inductive Geometry where
  | point (lon lat : ℚ)
  | polygon (rings : List (List (ℚ × ℚ)))
  | multiPolygon (polygons : List (List (List (ℚ × ℚ))))
  | unrecognized (ty : String)
deriving DecidableEq, Repr

/-- The fields of a NOAA alert feature the adapter reads (`geometry` may be
absent). -/
structure NOAAAlert where
  id : String
  event : String
  severity : String
  areaDesc : String
  geometry : Option Geometry
deriving DecidableEq, Repr

/-- A `NOAAResponse`, restricted to its `features`. -/
structure NOAAResponse where
  features : List NOAAAlert
deriving DecidableEq, Repr

/-- The `noaaEventToDisasterType` record from `noaa.ts` as an ordered
association list: JS `Object.keys`/`Object.entries` iterate string keys in
declaration order. -/
def noaaEventToDisasterType : List (String × DisasterType) :=
  [("Tornado", .Storm),
   ("Tornado Warning", .Storm),
   ("Tornado Watch", .Storm),
   ("Severe Thunderstorm", .Storm),
   ("Severe Thunderstorm Warning", .Storm),
   ("Severe Thunderstorm Watch", .Storm),
   ("Flash Flood", .Flood),
   ("Flash Flood Warning", .Flood),
   ("Flash Flood Watch", .Flood),
   ("Flood", .Flood),
   ("Flood Warning", .Flood),
   ("Flood Watch", .Flood),
   ("Hurricane", .Storm),
   ("Hurricane Warning", .Storm),
   ("Hurricane Watch", .Storm),
   ("Tropical Storm", .Storm),
   ("Tropical Storm Warning", .Storm),
   ("Tropical Storm Watch", .Storm),
   ("Winter Storm", .Storm),
   ("Winter Storm Warning", .Storm),
   ("Winter Storm Watch", .Storm),
   ("Blizzard", .Storm),
   ("Blizzard Warning", .Storm),
   ("Blizzard Watch", .Storm),
   ("Tsunami", .Flood),
   ("Tsunami Warning", .Flood),
   ("Tsunami Watch", .Flood),
   ("Red Flag", .Wildfire),
   ("Fire Weather", .Wildfire),
   ("Fire Warning", .Wildfire),
   ("Wildfire", .Wildfire)]

/-- The `noaaSeverityToAlertType` lookup plus the `|| AlertType.Advisory`
default at its use site in `mapNOAAResponseToDisasters`. -/
def noaaSeverityToAlertType (severity : String) : AlertType :=
  if severity = "Extreme" then .Warning
  else if severity = "Severe" then .Warning
  else if severity = "Moderate" then .Watch
  else if severity = "Minor" then .Advisory
  else if severity = "Unknown" then .Advisory
  else .Advisory

/-- The filter predicate in `mapNOAAResponseToDisasters`: does the event
name case-insensitively contain some lexicon key? -/
def noaaEventMatches (event : String) : Bool :=
  noaaEventToDisasterType.any fun kv => strIncludes (strToLower event) (strToLower kv.1)

/-- The `for … of Object.entries(noaaEventToDisasterType)` loop with
`break`: the value of the first matching key, defaulting to Storm. -/
def noaaResolveDisasterType (event : String) : DisasterType :=
  match noaaEventToDisasterType.find? (fun kv => strIncludes (strToLower event) (strToLower kv.1)) with
  | some kv => kv.2
  | none => .Storm

/-- The geometry-resolution block of `mapNOAAResponseToDisasters`:
`latitude`/`longitude` start at `0` and are overwritten only for a Point,
Polygon (mean of the first ring) or MultiPolygon (mean of the first ring of
the first polygon; an out-of-range `[0][0]` access is `undefined` in JS and
never occurs for well-formed payloads — modelled as the `(0,0)` default). -/
def noaaResolveCoordinates (geometry : Option Geometry) : ℚ × ℚ :=
  match geometry with
  | some (.point lon lat) => (lat, lon)
  | some (.polygon rings) =>
    match rings with
    | ring :: _ =>
      ((ring.map Prod.snd).sum / ring.length, (ring.map Prod.fst).sum / ring.length)
    | [] => (0, 0)
  | some (.multiPolygon polygons) =>
    match polygons with
    | (ring :: _) :: _ =>
      ((ring.map Prod.snd).sum / ring.length, (ring.map Prod.fst).sum / ring.length)
    | _ => (0, 0)
  | some (.unrecognized _) => (0, 0)
  | none => (0, 0)

/-- Per-feature body of the `map` in `mapNOAAResponseToDisasters`. -/
def noaaFeatureToDisaster (feature : NOAAAlert) : Disaster :=
  let coords := noaaResolveCoordinates feature.geometry
  { id := feature.id
    disasterType := noaaResolveDisasterType feature.event
    alertType := noaaSeverityToAlertType feature.severity
    location := feature.areaDesc
    latitude := some coords.1
    longitude := some coords.2
    source := "NOAA" }

/-- Function `mapNOAAResponseToDisasters` from `noaa.ts`: filter to recognized
events, then map. -/
def mapNOAAResponseToDisasters (data : NOAAResponse) : List Disaster :=
  (data.features.filter fun feature => noaaEventMatches feature.event).map
    noaaFeatureToDisaster

/-- Function `fetchWeatherAlerts` from `noaa.ts`: on an upstream failure the catch
block rethrows, so the returned promise rejects. -/
def fetchWeatherAlerts (resp : Upstream NOAAResponse) : Except String (List Disaster) :=
  match resp with
  | .ok r => .ok (mapNOAAResponseToDisasters r)
  | .fail => .error "Failed to fetch weather alerts"

/-! ## OpenWeatherMap adapter (`server/api/openweathermap.ts`) -/

/-- Constant `SEVERE_WEATHER_CODES` from `openweathermap.ts`. -/
def SEVERE_WEATHER_CODES : List ℤ :=
  [200, 201, 202, 210, 211, 212, 221, 230, 231, 232,
   502, 503, 504, 511, 522, 531,
   602, 622,
   771, 781]

/-- Constant `WIND_WARNING_THRESHOLD` (m/s). -/
def WIND_WARNING_THRESHOLD : ℚ := 172 / 10
/-- Constant `WIND_WATCH_THRESHOLD` (m/s). -/
def WIND_WATCH_THRESHOLD : ℚ := 108 / 10
/-- Constant `RAIN_WARNING_THRESHOLD` (mm per 3h). -/
def RAIN_WARNING_THRESHOLD : ℚ := 50
/-- Constant `RAIN_WATCH_THRESHOLD` (mm per 3h). -/
def RAIN_WATCH_THRESHOLD : ℚ := 25

/-- One entry of a `weather` array (`OWMWeather`), restricted to the fields
the adapter reads. -/
structure OWMWeather where
  id : ℤ
  main : String
  description : String
deriving DecidableEq, Repr

/-- An `OWMCurrentWeather` payload, restricted to the fields
`analyzeCurrentWeather` reads.  The optional `rain` object's optional
`'1h'`/`'3h'` entries are nested options, mirroring `rain?: { '1h'?; '3h'? }`. -/
structure OWMCurrentWeather where
  coordLon : ℚ
  coordLat : ℚ
  weather : List OWMWeather
  windSpeed : ℚ
  rain : Option (Option ℚ × Option ℚ)
  dt : ℤ
  cityId : ℤ
  name : String
  country : String
deriving DecidableEq, Repr

/-- An alert entry of a one-call payload (`OWMAlert`). -/
structure OWMAlert where
  event : String
  start : ℤ
  ends : ℤ
deriving DecidableEq, Repr

/-- An hourly forecast entry, restricted to its optional `rain.'1h'`
amount (`rain?: { '1h': number }`). -/
structure OWMHourly where
  rainOneH : Option ℚ
deriving DecidableEq, Repr

/-- An `OWMOneCall` payload, restricted to the fields the adapter reads. -/
structure OWMOneCall where
  lat : ℚ
  lon : ℚ
  timezone : String
  currentDt : ℤ
  currentWindSpeed : ℚ
  currentWeather : List OWMWeather
  hourly : Option (List OWMHourly)
  alerts : Option (List OWMAlert)
deriving DecidableEq, Repr

/-- JS numeric truthiness (`if (x)` on a number): false for `0` (NaN is not
representable in this rational model). -/
def truthyQ (x : ℚ) : Bool := !(x == 0)

/-- JS `String.prototype.replace` with a one-character string pattern:
replace the first occurrence only. -/
def replaceFirstChars (c : Char) (r : String) : List Char → List Char
  | [] => []
  | a :: as => if a == c then r.toList ++ as else a :: replaceFirstChars c r as

/-- Expression `data.timezone.replace('_', ' ').replace('/', ', ')` from
`openweathermap.ts`. -/
def owmLocationOfTimezone (timezone : String) : String :=
  ⟨replaceFirstChars '/' ", " (replaceFirstChars '_' " " timezone.toList)⟩

/-- Function `getSevereWeatherType` from `openweathermap.ts`. -/
def getSevereWeatherType (weatherId : ℤ) : DisasterType :=
  if 200 ≤ weatherId ∧ weatherId < 300 then .Storm
  else if (500 ≤ weatherId ∧ weatherId < 600) ∧
      weatherId ∈ ([502, 503, 504, 511, 522, 531] : List ℤ) then .Flood
  else if (600 ≤ weatherId ∧ weatherId < 700) ∧
      weatherId ∈ ([602, 622] : List ℤ) then .Storm
  else if weatherId = 781 then .Storm
  else .Storm

/-- Function `analyzeCurrentWeather` from `openweathermap.ts`: if some current
weather code is severe, emit one event whose severity is computed by the
wind rule and then possibly overwritten by the 3-hour-rainfall rule
(guarded by `data.rain && data.rain['3h']`, i.e. rain object present and
`'3h'` entry present and truthy). -/
def analyzeCurrentWeather (data : OWMCurrentWeather) : List Disaster :=
  match data.weather.find? (fun w => SEVERE_WEATHER_CODES.contains w.id) with
  | none => []
  | some severeCondition =>
    let windAlert : AlertType :=
      if data.windSpeed ≥ WIND_WARNING_THRESHOLD then .Warning
      else if data.windSpeed ≥ WIND_WATCH_THRESHOLD then .Watch
      else .Advisory
    let alertType : AlertType :=
      match data.rain with
      | some rain =>
        match rain.2 with
        | some r3 =>
          if truthyQ r3 then
            if r3 ≥ RAIN_WARNING_THRESHOLD then .Warning
            else if r3 ≥ RAIN_WATCH_THRESHOLD then .Watch
            else windAlert
          else windAlert
        | none => windAlert
      | none => windAlert
    [{ id := "owm-current-" ++ toString data.cityId ++ "-" ++ toString data.dt
       disasterType := getSevereWeatherType severeCondition.id
       alertType := alertType
       location := data.name ++ ", " ++ data.country
       latitude := some data.coordLat
       longitude := some data.coordLon
       source := "OpenWeatherMap" }]

/-- Function `processWeatherAlerts` from `openweathermap.ts`: map each native alert
to an event, with keyword-based type and severity resolution. -/
def processWeatherAlerts (data : OWMOneCall) : List Disaster :=
  match data.alerts with
  | none => []
  | some alerts =>
    if alerts.isEmpty then []
    else alerts.map fun alert =>
      let disasterType : DisasterType :=
        if strIncludes (strToLower alert.event) "flood" then .Flood
        else if strIncludes (strToLower alert.event) "fire" then .Wildfire
        else .Storm
      let alertType : AlertType :=
        if strIncludes (strToLower alert.event) "warning" then .Warning
        else if strIncludes (strToLower alert.event) "watch" then .Watch
        else if strIncludes (strToLower alert.event) "advisory" then .Advisory
        else .Advisory
      { id := "owm-alert-" ++ toString data.lat ++ "-" ++ toString data.lon
               ++ "-" ++ toString alert.start
        disasterType := disasterType
        alertType := alertType
        location := owmLocationOfTimezone data.timezone
        latitude := some data.lat
        longitude := some data.lon
        source := "OpenWeatherMap" }

/-- The `heavyRainForecast` computation in `analyzeWeatherConditions`:
`data.hourly.slice(0, 12).some(hour => hour.rain && hour.rain['1h'] &&
hour.rain['1h'] >= RAIN_WATCH_THRESHOLD/3)`. -/
def heavyRainForecastCheck (hourly : List OWMHourly) : Bool :=
  (hourly.take 12).any fun hour =>
    match hour.rainOneH with
    | some r1 => truthyQ r1 && (r1 ≥ RAIN_WATCH_THRESHOLD / 3)
    | none => false

/-- Function `analyzeWeatherConditions` from `openweathermap.ts`: if some current
weather code is severe, emit one event; its severity is computed by the
wind rule and then overwritten with Watch when any of the next 12 hourly
forecast entries has a present, truthy hourly rainfall
`≥ RAIN_WATCH_THRESHOLD / 3`. -/
def analyzeWeatherConditions (data : OWMOneCall) : List Disaster :=
  match data.currentWeather.find? (fun w => SEVERE_WEATHER_CODES.contains w.id) with
  | none => []
  | some severeCondition =>
    let windAlert : AlertType :=
      if data.currentWindSpeed ≥ WIND_WARNING_THRESHOLD then .Warning
      else if data.currentWindSpeed ≥ WIND_WATCH_THRESHOLD then .Watch
      else .Advisory
    let alertType : AlertType :=
      match data.hourly with
      | some hourly =>
        if heavyRainForecastCheck hourly then .Watch else windAlert
      | none => windAlert
    [{ id := "owm-onecall-" ++ toString data.lat ++ "-" ++ toString data.lon
             ++ "-" ++ toString data.currentDt
       disasterType := getSevereWeatherType severeCondition.id
       alertType := alertType
       location := owmLocationOfTimezone data.timezone
       latitude := some data.lat
       longitude := some data.lon
       source := "OpenWeatherMap" }]

/-- Function `fetchCurrentWeather` from `openweathermap.ts`: a missing API key and
an upstream failure both yield an empty list — the catch block returns `[]`
instead of rethrowing, so this promise never rejects. -/
def fetchCurrentWeather (apiKey : String) (resp : Upstream OWMCurrentWeather)
    (_latitude _longitude : ℚ) : Except String (List Disaster) :=
  if apiKey = "" then .ok []
  else
    match resp with
    | .ok r => .ok (analyzeCurrentWeather r)
    | .fail => .ok []

/-- Function `fetchWeatherOneCall` from `openweathermap.ts`: a missing API key and
an upstream failure both yield an empty list — the catch block returns `[]`
instead of rethrowing, so this promise never rejects. -/
def fetchWeatherOneCall (apiKey : String) (resp : Upstream OWMOneCall)
    (_latitude _longitude : ℚ) : Except String (List Disaster) :=
  if apiKey = "" then .ok []
  else
    match resp with
    | .ok r => .ok (processWeatherAlerts r ++ analyzeWeatherConditions r)
    | .fail => .ok []

/-! ## Haversine distance and the aggregator (`server/api/index.ts`) -/

/-- JS `Math.atan2` on real arguments (the signed-zero distinction of IEEE
floats does not exist here; both zeros collapse to `0`). -/
noncomputable def atan2 (y x : ℝ) : ℝ :=
  if 0 < x then Real.arctan (y / x)
  else if x < 0 then
    if 0 ≤ y then Real.arctan (y / x) + Real.pi else Real.arctan (y / x) - Real.pi
  else if 0 < y then Real.pi / 2
  else if y < 0 then -(Real.pi / 2)
  else 0

/-- Function `calculateDistance` from `server/api/index.ts`: Haversine great-circle
distance in kilometres with Earth radius 6371 km (identical private copies
live in `usgs.ts` and `noaa.ts`). -/
noncomputable def calculateDistance (lat1 lon1 lat2 lon2 : ℝ) : ℝ :=
  let R : ℝ := 6371
  let dLat := (lat2 - lat1) * Real.pi / 180
  let dLon := (lon2 - lon1) * Real.pi / 180
  let a := Real.sin (dLat / 2) * Real.sin (dLat / 2) +
    Real.cos (lat1 * Real.pi / 180) * Real.cos (lat2 * Real.pi / 180) *
    Real.sin (dLon / 2) * Real.sin (dLon / 2)
  let c := 2 * atan2 (Real.sqrt a) (Real.sqrt (1 - a))
  R * c

/-- JS truthiness of an optional numeric query parameter: absent, or
present with value `0`, is falsy. -/
def truthyOptQ : Option ℚ → Bool
  | none => false
  | some x => truthyQ x

/-- The filter callback of the geographic step of `getAllDisasters`:
events with a missing coordinate are dropped, otherwise the event is kept
when its Haversine distance from the query point is at most the radius. -/
noncomputable def withinRadiusCheck (qlat qlon radius : ℚ) (d : Disaster) : Bool :=
  match d.latitude, d.longitude with
  | some dlat, some dlon =>
    decide (calculateDistance (qlat : ℝ) (qlon : ℝ) (dlat : ℝ) (dlon : ℝ) ≤ (radius : ℝ))
  | _, _ => false

/-- Step 4 of `getAllDisasters`: `if (options.types && options.types.length
> 0)` filter by `disasterType` membership. -/
def typesFilterStep (types : Option (List DisasterType)) (disasters : List Disaster) :
    List Disaster :=
  match types with
  | some ts =>
    if ts.length > 0 then disasters.filter fun d => ts.contains d.disasterType
    else disasters
  | none => disasters

/-- Step 5 of `getAllDisasters`: `if (options.alertTypes &&
options.alertTypes.length > 0)` filter by `alertType` membership. -/
def alertTypesFilterStep (alertTypes : Option (List AlertType)) (disasters : List Disaster) :
    List Disaster :=
  match alertTypes with
  | some ats =>
    if ats.length > 0 then disasters.filter fun d => ats.contains d.alertType
    else disasters
  | none => disasters

/-- Step 6 of `getAllDisasters`: `if (options.latitude && options.longitude
&& options.radius)` filter by Haversine distance. -/
noncomputable def geoFilterStep (latitude longitude radius : Option ℚ)
    (disasters : List Disaster) : List Disaster :=
  if truthyOptQ latitude && truthyOptQ longitude && truthyOptQ radius then
    disasters.filter
      (withinRadiusCheck (latitude.getD 0) (longitude.getD 0) (radius.getD 0))
  else disasters

/-- The options object accepted by `getAllDisasters`. -/
structure GetAllOptions where
  types : Option (List DisasterType)
  alertTypes : Option (List AlertType)
  timeRange : Option String
  latitude : Option ℚ
  longitude : Option ℚ
  radius : Option ℚ

/-- Function `getAllDisasters` from `server/api/index.ts`.  The three upstream
outcomes and the OpenWeatherMap API key are explicit arguments.  The
`Promise.all` fan-out fails as a whole when any constituent promise
rejects, and the surrounding catch rethrows a generic error.  The
OpenWeatherMap call is made only when `options.latitude &&
options.longitude` is truthy; the geographic filter additionally requires
a truthy `options.radius`. -/
noncomputable def getAllDisasters (usgsResp : Upstream USGSResponse)
    (noaaResp : Upstream NOAAResponse) (owmApiKey : String)
    (owmResp : Upstream OWMOneCall) (options : GetAllOptions) :
    Except String (List Disaster) :=
  let timeRange := mapTimeRangeToValue
    (match options.timeRange with
     | some s => if s = "" then "24h" else s
     | none => "24h")
  let earthquakesE := fetchEarthquakeData timeRange usgsResp
  let weatherAlertsE := fetchWeatherAlerts noaaResp
  let weatherDataE :=
    if truthyOptQ options.latitude && truthyOptQ options.longitude then
      fetchWeatherOneCall owmApiKey owmResp (options.latitude.getD 0)
        (options.longitude.getD 0)
    else .ok []
  match earthquakesE, weatherAlertsE, weatherDataE with
  | .ok earthquakes, .ok weatherAlerts, .ok weatherData =>
    .ok (geoFilterStep options.latitude options.longitude options.radius
      (alertTypesFilterStep options.alertTypes
        (typesFilterStep options.types (earthquakes ++ weatherAlerts ++ weatherData))))
  | _, _, _ => .error "Failed to fetch disaster data"

/-! ## Spec-side vocabulary

Definitions following the specification's words, used to state the claims
about the code-side definitions above. -/

/-- The spec's wind-derived alert level: Warning if wind speed ≥ 17.2 m/s,
else Watch if ≥ 10.8 m/s, else Advisory. -/
def windAlertLevel (windSpeed : ℚ) : AlertType :=
  if windSpeed ≥ WIND_WARNING_THRESHOLD then .Warning
  else if windSpeed ≥ WIND_WATCH_THRESHOLD then .Watch
  else .Advisory

/-- The spec's rain-derived alert level: Warning if 3-hour rainfall
≥ 50 mm, else Watch if ≥ 25 mm, else Advisory. -/
def rainAlertLevel (rain3h : ℚ) : AlertType :=
  if rain3h ≥ RAIN_WARNING_THRESHOLD then .Warning
  else if rain3h ≥ RAIN_WATCH_THRESHOLD then .Watch
  else .Advisory

/-- The 3-hour rainfall a current-conditions payload carries (`0` when the
`rain` object or its `'3h'` entry is absent). -/
def currentRain3h (data : OWMCurrentWeather) : ℚ :=
  match data.rain with
  | some rain =>
    match rain.2 with
    | some r3 => r3
    | none => 0
  | none => 0

/-! ## C1: current-conditions severity is not the wind/rain maximum -/

/-- Current conditions with tropical-storm-force wind (18 m/s ≥ 17.2) and a
3-hour rainfall of 30 mm (≥ 25, < 50). -/
def exWindyRainy : OWMCurrentWeather :=
  { coordLon := 100, coordLat := 20
    weather := [⟨200, "Thunderstorm", "thunderstorm"⟩]
    windSpeed := 18, rain := some (none, some 30)
    dt := 5, cityId := 7, name := "Townsville", country := "AU" }

/-- The event `analyzeCurrentWeather` emits for `exWindyRainy`. -/
def exWindyRainyDisaster : Disaster :=
  { id := "owm-current-7-5", disasterType := .Storm, alertType := .Watch
    location := "Townsville, AU", latitude := some 20, longitude := some 100
    source := "OpenWeatherMap" }

/-- The forecast heavy-rain flag as `analyzeWeatherConditions` computes it
(false when the payload has no `hourly` array). -/
def heavyRainNext12 (data : OWMOneCall) : Bool :=
  match data.hourly with
  | some hourly => heavyRainForecastCheck hourly
  | none => false
/-- One-call payload with Warning-level wind (20 m/s) and a forecast hour
of 10 mm rainfall (≥ 25/3). -/
def exWindyForecast : OWMOneCall :=
  { lat := 10, lon := 30, timezone := "Australia/Sydney", currentDt := 3
    currentWindSpeed := 20, currentWeather := [⟨781, "Tornado", "tornado"⟩]
    hourly := some [⟨some 10⟩], alerts := none }
/-- The event `analyzeWeatherConditions` emits for `exWindyForecast`. -/
def exWindyForecastDisaster : Disaster :=
  { id := "owm-onecall-10-30-3", disasterType := .Storm, alertType := .Watch
    location := "Australia, Sydney", latitude := some 10, longitude := some 30
    source := "OpenWeatherMap" }
/-- Two weather-alert features: a recognized "Flash Flood Warning" (first
matching key: "Flash Flood" at index 6, value Flood) and an unrecognized
"Dust Advisory". -/
def exNOAAResponse : NOAAResponse :=
  ⟨[⟨"n1", "Flash Flood Warning", "Severe", "County A", none⟩,
    ⟨"n2", "Dust Advisory", "Minor", "County B", none⟩]⟩
/-- Boundary magnitudes for the seismic classifier (truncated fields are
irrelevant to classification). -/
def usgsBoundaryFeature (mag : ℚ) : USGSFeature :=
  { id := "us-test", mag := mag, place := "somewhere", tsunami := 0,
    coordinates := (10, 20, 5) }
/-- Concrete response carrying the five boundary magnitudes of the claim. -/
def usgsBoundaryResponse : USGSResponse :=
  ⟨[usgsBoundaryFeature 5, usgsBoundaryFeature (49999/10000),
    usgsBoundaryFeature 4, usgsBoundaryFeature (39999/10000),
    usgsBoundaryFeature 0]⟩
/-- An earthquake feature at latitude 0, longitude 0.2
(`coordinates = [lon, lat, depth]`). -/
def exNearbyQuake : USGSFeature :=
  { id := "eq-nearby", mag := 6, place := "Near origin", tsunami := 0,
    coordinates := (1/5, 0, 10) }

lemma analyzeCurrentWeather_exWindyRainy :
    analyzeCurrentWeather exWindyRainy = [exWindyRainyDisaster] := by
  norm_num [analyzeCurrentWeather, exWindyRainy, exWindyRainyDisaster,
    SEVERE_WEATHER_CODES, truthyQ, getSevereWeatherType, List.find?,
    WIND_WARNING_THRESHOLD, WIND_WATCH_THRESHOLD, RAIN_WARNING_THRESHOLD,
    RAIN_WATCH_THRESHOLD]
  exact ⟨rfl, rfl⟩

/-- C1 counterexample.  It is not the case that every severe-condition
event of `analyzeCurrentWeather` carries the maximum of the wind-derived
and rain-derived levels: at wind 18 m/s (wind level Warning) and 3-hour
rain 30 mm (rain level Watch) the emitted level is Watch, not Warning. -/
theorem analyzeCurrentWeather_not_max_cex :
    ¬ ∀ (data : OWMCurrentWeather), ∀ d ∈ analyzeCurrentWeather data,
        d.alertType = maxAlert (windAlertLevel data.windSpeed)
          (rainAlertLevel (currentRain3h data)) := by
  intro h
  have hd := h exWindyRainy exWindyRainyDisaster
    (by rw [analyzeCurrentWeather_exWindyRainy]; exact .head _)
  rw [show exWindyRainyDisaster.alertType = .Watch from rfl] at hd
  revert hd
  norm_num [maxAlert, windAlertLevel, rainAlertLevel, currentRain3h,
    exWindyRainy, AlertType.rank, WIND_WARNING_THRESHOLD,
    WIND_WATCH_THRESHOLD, RAIN_WARNING_THRESHOLD, RAIN_WATCH_THRESHOLD]
  all_goals decide

/-- C1 amended.  The emitted severity is the rain-derived level whenever a
truthy 3-hour rainfall reaches the Watch threshold (the rainfall rule
overwrites, not maximises, the wind level), and the wind-derived level
otherwise. -/
theorem analyzeCurrentWeather_alert_level (data : OWMCurrentWeather)
    (d : Disaster) (hd : d ∈ analyzeCurrentWeather data) :
    d.alertType =
      if truthyQ (currentRain3h data) = true ∧
          RAIN_WATCH_THRESHOLD ≤ currentRain3h data then
        rainAlertLevel (currentRain3h data)
      else windAlertLevel data.windSpeed := by
  obtain ⟨lon, lat, weather, wind, rain, dt, cid, name, country⟩ := data
  unfold analyzeCurrentWeather at hd
  cases hfind : List.find? (fun w => SEVERE_WEATHER_CODES.contains w.id) weather with
  | none => rw [hfind] at hd; simp at hd
  | some sc =>
    rw [hfind] at hd
    simp only [List.mem_singleton] at hd
    subst hd
    cases rain with
    | none => simp [currentRain3h, truthyQ, windAlertLevel]
    | some p =>
      obtain ⟨r1, r3⟩ := p
      cases r3 with
      | none => simp [currentRain3h, truthyQ, windAlertLevel]
      | some r3v =>
        simp only [currentRain3h, truthyQ, windAlertLevel, rainAlertLevel,
          Bool.not_eq_true', beq_eq_false_iff_ne, ne_eq, ge_iff_le]
        by_cases h0 : r3v = 0
        · simp [h0]
        · by_cases h50 : RAIN_WARNING_THRESHOLD ≤ r3v
          · have h25 : RAIN_WATCH_THRESHOLD ≤ r3v := by
              simp only [RAIN_WARNING_THRESHOLD, RAIN_WATCH_THRESHOLD] at h50 ⊢
              linarith
            simp [h50, h25, h0]
          · by_cases h25 : RAIN_WATCH_THRESHOLD ≤ r3v
            · simp [h50, h25, h0]
            · simp [h50, h25, h0]

/-- Witness for C1 amended at `exWindyRainy`: the event is emitted, its
level matches the override rule, and it is Watch despite Warning-level
wind. -/
theorem analyzeCurrentWeather_alert_level_witness :
    exWindyRainyDisaster ∈ analyzeCurrentWeather exWindyRainy ∧
    exWindyRainyDisaster.alertType =
      (if truthyQ (currentRain3h exWindyRainy) = true ∧
          RAIN_WATCH_THRESHOLD ≤ currentRain3h exWindyRainy then
        rainAlertLevel (currentRain3h exWindyRainy)
      else windAlertLevel exWindyRainy.windSpeed) ∧
    exWindyRainyDisaster.alertType = .Watch :=
  ⟨by rw [analyzeCurrentWeather_exWindyRainy]; exact .head _,
   analyzeCurrentWeather_alert_level exWindyRainy exWindyRainyDisaster
     (by rw [analyzeCurrentWeather_exWindyRainy]; exact .head _),
   rfl⟩

/-! ## C3: forecast-scan escalation in the one-call path -/




lemma analyzeWeatherConditions_exWindyForecast :
    analyzeWeatherConditions exWindyForecast = [exWindyForecastDisaster] := by
  norm_num [analyzeWeatherConditions, exWindyForecast, exWindyForecastDisaster,
    SEVERE_WEATHER_CODES, truthyQ, getSevereWeatherType, List.find?,
    heavyRainForecastCheck, owmLocationOfTimezone, replaceFirstChars,
    WIND_WARNING_THRESHOLD, WIND_WATCH_THRESHOLD, RAIN_WATCH_THRESHOLD]
  exact ⟨rfl, rfl⟩

/-- C3 counterexample.  A heavy-rain forecast does not merely escalate to
"at least Watch": with wind 20 m/s (wind level Warning) and a forecast
hour of 10 mm the emitted severity is Watch, i.e. the wind-derived Warning
is lowered rather than kept. -/
theorem analyzeWeatherConditions_downgrade_cex :
    ¬ ∀ (data : OWMOneCall), ∀ d ∈ analyzeWeatherConditions data,
        (∃ hour ∈ (data.hourly.getD []).take 12, ∃ r1, hour.rainOneH = some r1 ∧
            RAIN_WATCH_THRESHOLD / 3 ≤ r1) →
        d.alertType = maxAlert (windAlertLevel data.currentWindSpeed) .Watch := by
  intro h
  have hd := h exWindyForecast exWindyForecastDisaster
    (by rw [analyzeWeatherConditions_exWindyForecast]; exact .head _)
    ⟨⟨some 10⟩, by simp [exWindyForecast], 10, rfl,
      by norm_num [RAIN_WATCH_THRESHOLD]⟩
  rw [show exWindyForecastDisaster.alertType = .Watch from rfl] at hd
  revert hd
  norm_num [maxAlert, windAlertLevel, exWindyForecast, AlertType.rank,
    WIND_WARNING_THRESHOLD, WIND_WATCH_THRESHOLD]
  all_goals decide

/-- C3 amended.  When the next 12 hourly forecast entries contain a truthy
hourly rainfall ≥ 25/3 mm the emitted severity is set to exactly Watch
(also lowering a wind-derived Warning); otherwise it is the wind-derived
level.  The code's forecast flag holds exactly when some of the next 12
hourly entries carries rainfall ≥ 25/3 mm. -/
theorem analyzeWeatherConditions_alert_level (data : OWMOneCall)
    (d : Disaster) (hd : d ∈ analyzeWeatherConditions data) :
    (d.alertType =
      if heavyRainNext12 data = true then .Watch
      else windAlertLevel data.currentWindSpeed) ∧
    (heavyRainNext12 data = true ↔
      ∃ hour ∈ (data.hourly.getD []).take 12, ∃ r1, hour.rainOneH = some r1 ∧
        RAIN_WATCH_THRESHOLD / 3 ≤ r1) := by
  obtain ⟨lat, lon, tz, cdt, wind, cweather, hourly, alerts⟩ := data
  constructor
  · unfold analyzeWeatherConditions at hd
    cases hfind : List.find? (fun w => SEVERE_WEATHER_CODES.contains w.id) cweather with
    | none => rw [hfind] at hd; simp at hd
    | some sc =>
      rw [hfind] at hd
      simp only [List.mem_singleton] at hd
      subst hd
      cases hourly with
      | none => simp [heavyRainNext12, windAlertLevel]
      | some hl => simp only [heavyRainNext12, windAlertLevel]
  · cases hourly with
    | none => simp [heavyRainNext12]
    | some hl =>
      simp only [heavyRainNext12, heavyRainForecastCheck, Option.getD_some,
        List.any_eq_true]
      constructor
      · rintro ⟨hour, hmem, hpred⟩
        refine ⟨hour, hmem, ?_⟩
        cases hr : hour.rainOneH with
        | none => rw [hr] at hpred; simp at hpred
        | some r1 =>
          rw [hr] at hpred
          simp only [Bool.and_eq_true, truthyQ, Bool.not_eq_true',
            beq_eq_false_iff_ne, ne_eq, decide_eq_true_eq, ge_iff_le] at hpred
          exact ⟨r1, rfl, hpred.2⟩
      · rintro ⟨hour, hmem, r1, hr, hge⟩
        refine ⟨hour, hmem, ?_⟩
        rw [hr]
        have h0 : r1 ≠ 0 := by
          intro h
          rw [h] at hge
          norm_num [RAIN_WATCH_THRESHOLD] at hge
        simp [truthyQ, h0, ge_iff_le, hge]

/-- Witness for C3 amended at `exWindyForecast`: the event is emitted, its
level matches the override rule, and it is Watch although the wind rule
alone gives Warning. -/
theorem analyzeWeatherConditions_alert_level_witness :
    exWindyForecastDisaster ∈ analyzeWeatherConditions exWindyForecast ∧
    exWindyForecastDisaster.alertType =
      (if heavyRainNext12 exWindyForecast = true then .Watch
       else windAlertLevel exWindyForecast.currentWindSpeed) ∧
    exWindyForecastDisaster.alertType = .Watch ∧
    windAlertLevel exWindyForecast.currentWindSpeed = .Warning :=
  ⟨by rw [analyzeWeatherConditions_exWindyForecast]; exact .head _,
   (analyzeWeatherConditions_alert_level exWindyForecast exWindyForecastDisaster
     (by rw [analyzeWeatherConditions_exWindyForecast]; exact .head _)).1,
   rfl,
   by norm_num [windAlertLevel, exWindyForecast, WIND_WARNING_THRESHOLD]⟩

/-! ## C7: NOAA lexicon pre-filter and first-match type resolution -/

/-- Lemma: `find?` returns the element at the first index satisfying the
predicate. -/
lemma find?_eq_of_first_match {α : Type} (l : List α) (p : α → Bool) (i : ℕ)
    (hi : i < l.length) (hp : p (l.get ⟨i, hi⟩) = true)
    (hmin : ∀ j (hj : j < i), p (l.get ⟨j, hj.trans hi⟩) = false) :
    l.find? p = some (l.get ⟨i, hi⟩) := by
  induction l generalizing i with
  | nil => exact absurd hi (by simp)
  | cons a as ih =>
    cases i with
    | zero =>
      exact List.find?_cons_of_pos _ hp
    | succ n =>
      have ha : p a = false := hmin 0 (Nat.succ_pos n)
      have h2 := ih n (Nat.lt_of_succ_lt_succ hi) hp
        (fun j hj => hmin (j + 1) (Nat.succ_lt_succ hj))
      rw [List.find?_cons_of_neg _ (by simp [ha])]
      exact h2

/-- C7.  A weather-alert feature is emitted exactly when its free-text
event name case-insensitively contains some lexicon key (every emitted
event arises from such a feature and every such feature is emitted), and
the emitted disaster type is the value of the first matching key in
lexicon declaration order. -/
theorem noaa_lexicon_emission (data : NOAAResponse) :
    (∀ d ∈ mapNOAAResponseToDisasters data,
      ∃ f ∈ data.features, noaaEventMatches f.event = true ∧
        d = noaaFeatureToDisaster f) ∧
    (∀ f ∈ data.features, noaaEventMatches f.event = true →
      noaaFeatureToDisaster f ∈ mapNOAAResponseToDisasters data) ∧
    (∀ f : NOAAAlert, noaaEventMatches f.event = true ↔
      ∃ kv ∈ noaaEventToDisasterType,
        strIncludes (strToLower f.event) (strToLower kv.1) = true) ∧
    (∀ (f : NOAAAlert) (i : ℕ) (hi : i < noaaEventToDisasterType.length),
      strIncludes (strToLower f.event)
        (strToLower (noaaEventToDisasterType.get ⟨i, hi⟩).1) = true →
      (∀ j (hj : j < i),
        strIncludes (strToLower f.event)
          (strToLower (noaaEventToDisasterType.get ⟨j, hj.trans hi⟩).1) = false) →
      (noaaFeatureToDisaster f).disasterType =
        (noaaEventToDisasterType.get ⟨i, hi⟩).2) := by
  refine ⟨?_, ?_, ?_, ?_⟩
  · intro d hd
    simp only [mapNOAAResponseToDisasters, List.mem_map, List.mem_filter] at hd
    obtain ⟨f, ⟨hf, hm⟩, rfl⟩ := hd
    exact ⟨f, hf, hm, rfl⟩
  · intro f hf hm
    simp only [mapNOAAResponseToDisasters, List.mem_map, List.mem_filter]
    exact ⟨f, ⟨hf, hm⟩, rfl⟩
  · intro f
    simp [noaaEventMatches, List.any_eq_true]
  · intro f i hi hp hmin
    have hfind := find?_eq_of_first_match noaaEventToDisasterType
      (fun kv => strIncludes (strToLower f.event) (strToLower kv.1)) i hi hp hmin
    simp only [noaaFeatureToDisaster, noaaResolveDisasterType]
    rw [hfind]


/-- Witness for C7: the recognized feature is emitted with disasterType
Flood (its first matching key in declaration order), and the unrecognized
feature matches no key. -/
theorem noaa_lexicon_emission_witness :
    noaaFeatureToDisaster ⟨"n1", "Flash Flood Warning", "Severe", "County A", none⟩ ∈
      mapNOAAResponseToDisasters exNOAAResponse ∧
    (noaaFeatureToDisaster
      ⟨"n1", "Flash Flood Warning", "Severe", "County A", none⟩).disasterType =
        .Flood ∧
    noaaEventMatches "Dust Advisory" = false :=
  ⟨(noaa_lexicon_emission exNOAAResponse).2.1 _ (.head _) (by decide),
   (noaa_lexicon_emission exNOAAResponse).2.2.2
      ⟨"n1", "Flash Flood Warning", "Severe", "County A", none⟩ 6 (by decide)
      (by decide) (by decide),
   by decide⟩

/-! ## C8: NOAA events always carry coordinates, defaulting to (0,0) -/

/-- C8.  Every emitted weather-alert event has both coordinates set; a
feature with absent or unrecognized geometry gets the `(0,0)` defaults, so
the geographic filter's missing-coordinate check never drops it and it is
retained exactly when the point `(0,0)` lies within the query radius. -/
theorem noaa_coordinates_defaulted (data : NOAAResponse) (f : NOAAAlert)
    (hgeom : f.geometry = none ∨ ∃ ty, f.geometry = some (.unrecognized ty)) :
    (∀ d ∈ mapNOAAResponseToDisasters data, d.latitude.isSome ∧ d.longitude.isSome) ∧
    (noaaFeatureToDisaster f).latitude = some 0 ∧
    (noaaFeatureToDisaster f).longitude = some 0 ∧
    (∀ qlat qlon radius : ℚ,
      withinRadiusCheck qlat qlon radius (noaaFeatureToDisaster f) =
        decide (calculateDistance (qlat : ℝ) (qlon : ℝ) ((0 : ℚ) : ℝ) ((0 : ℚ) : ℝ) ≤
          (radius : ℝ))) := by
  refine ⟨?_, ?_, ?_, ?_⟩
  · intro d hd
    simp only [mapNOAAResponseToDisasters, List.mem_map] at hd
    obtain ⟨g, _, rfl⟩ := hd
    exact ⟨by simp [noaaFeatureToDisaster], by simp [noaaFeatureToDisaster]⟩
  · rcases hgeom with h | ⟨ty, h⟩ <;>
      simp [noaaFeatureToDisaster, noaaResolveCoordinates, h]
  · rcases hgeom with h | ⟨ty, h⟩ <;>
      simp [noaaFeatureToDisaster, noaaResolveCoordinates, h]
  · intro qlat qlon radius
    rcases hgeom with h | ⟨ty, h⟩ <;>
      simp [withinRadiusCheck, noaaFeatureToDisaster, noaaResolveCoordinates, h]

/-- Witness for C8 at a geometry-free "Tornado" feature and query point
(7,8) with radius 9. -/
theorem noaa_coordinates_defaulted_witness :
    (noaaFeatureToDisaster ⟨"n3", "Tornado", "Extreme", "County C", none⟩).latitude =
      some 0 ∧
    (noaaFeatureToDisaster ⟨"n3", "Tornado", "Extreme", "County C", none⟩).longitude =
      some 0 ∧
    withinRadiusCheck 7 8 9
        (noaaFeatureToDisaster ⟨"n3", "Tornado", "Extreme", "County C", none⟩) =
      decide (calculateDistance ((7 : ℚ) : ℝ) ((8 : ℚ) : ℝ) ((0 : ℚ) : ℝ) ((0 : ℚ) : ℝ) ≤
        ((9 : ℚ) : ℝ)) :=
  have h := noaa_coordinates_defaulted ⟨[]⟩
    ⟨"n3", "Tornado", "Extreme", "County C", none⟩ (Or.inl rfl)
  ⟨h.2.1, h.2.2.1, h.2.2.2 7 8 9⟩

/-! ## C6: seismic severity classification -/

/-- C6.  For every seismic feed feature, the emitted event's alert type is
Warning exactly when magnitude ≥ 5.0, Watch exactly when 4.0 ≤ magnitude
< 5.0, and Advisory exactly when magnitude < 4.0; both thresholds are
inclusive lower bounds, and the event is emitted. -/
theorem usgs_alert_classification (data : USGSResponse) (f : USGSFeature)
    (hf : f ∈ data.features) :
    usgsFeatureToDisaster f ∈ mapUSGSResponseToDisasters data ∧
    ((usgsFeatureToDisaster f).alertType = .Warning ↔ 5 ≤ f.mag) ∧
    ((usgsFeatureToDisaster f).alertType = .Watch ↔ 4 ≤ f.mag ∧ f.mag < 5) ∧
    ((usgsFeatureToDisaster f).alertType = .Advisory ↔ f.mag < 4) := by
  refine ⟨List.mem_map_of_mem usgsFeatureToDisaster hf, ?_, ?_, ?_⟩
  · simp only [usgsFeatureToDisaster, MAGNITUDE_WARNING_THRESHOLD,
      MAGNITUDE_WATCH_THRESHOLD, ge_iff_le]
    split_ifs with h1 h2
    · exact iff_of_true rfl h1
    · exact iff_of_false (by simp) h1
    · exact iff_of_false (by simp) h1
  · simp only [usgsFeatureToDisaster, MAGNITUDE_WARNING_THRESHOLD,
      MAGNITUDE_WATCH_THRESHOLD, ge_iff_le]
    split_ifs with h1 h2
    · exact iff_of_false (by simp) fun h => absurd h.2 (not_lt.mpr h1)
    · exact iff_of_true rfl ⟨h2, lt_of_not_le h1⟩
    · exact iff_of_false (by simp) fun h => absurd h.1 h2
  · simp only [usgsFeatureToDisaster, MAGNITUDE_WARNING_THRESHOLD,
      MAGNITUDE_WATCH_THRESHOLD, ge_iff_le]
    split_ifs with h1 h2
    · exact iff_of_false (by simp) (not_lt.mpr (by linarith))
    · exact iff_of_false (by simp) (not_lt.mpr h2)
    · exact iff_of_true rfl (lt_of_not_le h2)



/-- Witness for C6 at the claim's five boundary magnitudes. -/
theorem usgs_alert_classification_witness :
    (usgsFeatureToDisaster (usgsBoundaryFeature 5)).alertType = .Warning ∧
    (usgsFeatureToDisaster (usgsBoundaryFeature (49999/10000))).alertType = .Watch ∧
    (usgsFeatureToDisaster (usgsBoundaryFeature 4)).alertType = .Watch ∧
    (usgsFeatureToDisaster (usgsBoundaryFeature (39999/10000))).alertType = .Advisory ∧
    (usgsFeatureToDisaster (usgsBoundaryFeature 0)).alertType = .Advisory :=
  ⟨((usgs_alert_classification usgsBoundaryResponse _ (.head _)).2.1).mpr
     (by norm_num [usgsBoundaryFeature]),
   ((usgs_alert_classification usgsBoundaryResponse _ (.tail _ (.head _))).2.2.1).mpr
     (by norm_num [usgsBoundaryFeature]),
   ((usgs_alert_classification usgsBoundaryResponse _
       (.tail _ (.tail _ (.head _)))).2.2.1).mpr
     (by norm_num [usgsBoundaryFeature]),
   ((usgs_alert_classification usgsBoundaryResponse _
       (.tail _ (.tail _ (.tail _ (.head _))))).2.2.2).mpr
     (by norm_num [usgsBoundaryFeature]),
   ((usgs_alert_classification usgsBoundaryResponse _
       (.tail _ (.tail _ (.tail _ (.tail _ (.head _)))))).2.2.2).mpr
     (by norm_num [usgsBoundaryFeature])⟩

/-! ## C9: missing OpenWeatherMap credential -/

/-- C9.  With an absent API credential both OpenWeatherMap fetchers return
the empty list and never reject, for every latitude/longitude and every
upstream outcome. -/
theorem owm_missing_key_empty :
    ∀ (latitude longitude : ℚ) (respC : Upstream OWMCurrentWeather)
      (respO : Upstream OWMOneCall),
      fetchCurrentWeather "" respC latitude longitude = .ok [] ∧
      fetchWeatherOneCall "" respO latitude longitude = .ok [] :=
  fun _ _ _ _ => ⟨rfl, rfl⟩

/-! ## C2: aggregation failure semantics -/

lemma fetchWeatherOneCall_never_rejects (apiKey : String) (resp : Upstream OWMOneCall)
    (latitude longitude : ℚ) :
    ∃ w, fetchWeatherOneCall apiKey resp latitude longitude = .ok w := by
  unfold fetchWeatherOneCall
  split_ifs with h
  · exact ⟨[], rfl⟩
  · cases resp with
    | ok r => exact ⟨_, rfl⟩
    | fail => exact ⟨[], rfl⟩

lemma weatherDataStep_never_rejects (apiKey : String) (resp : Upstream OWMOneCall)
    (lat lon : Option ℚ) :
    ∃ w, (if truthyOptQ lat && truthyOptQ lon then
        fetchWeatherOneCall apiKey resp (lat.getD 0) (lon.getD 0)
      else .ok []) = .ok w := by
  split_ifs with h
  · exact fetchWeatherOneCall_never_rejects apiKey resp (lat.getD 0) (lon.getD 0)
  · exact ⟨[], rfl⟩

/-- C2 counterexample.  An OpenWeatherMap upstream failure does not fail
the aggregation: with both other feeds healthy and a truthy query point,
`getAllDisasters` succeeds with the partial (here empty) result. -/
theorem getAllDisasters_owm_failure_cex :
    getAllDisasters (.ok ⟨[]⟩) (.ok ⟨[]⟩) "secret-key" .fail
      ⟨none, none, none, some 1, some 1, none⟩ = .ok [] := by
  norm_num [getAllDisasters, fetchEarthquakeData, fetchWeatherAlerts,
    fetchWeatherOneCall, mapUSGSResponseToDisasters, mapNOAAResponseToDisasters,
    mapTimeRangeToValue, truthyOptQ, truthyQ, typesFilterStep,
    alertTypesFilterStep, geoFilterStep]

/-- C2 amended.  A seismic-feed or weather-alert-feed failure aborts the
whole `getAllDisasters` call with the generic error, but the
WeatherCondition (OpenWeatherMap) adapter swallows its own upstream
failures, so the aggregation always succeeds when only it fails. -/
theorem getAllDisasters_failure_semantics :
    (∀ (noaaResp : Upstream NOAAResponse) (owmKey : String)
      (owmResp : Upstream OWMOneCall) (options : GetAllOptions),
      getAllDisasters .fail noaaResp owmKey owmResp options =
        .error "Failed to fetch disaster data") ∧
    (∀ (usgsData : USGSResponse) (owmKey : String) (owmResp : Upstream OWMOneCall)
      (options : GetAllOptions),
      getAllDisasters (.ok usgsData) .fail owmKey owmResp options =
        .error "Failed to fetch disaster data") ∧
    (∀ (usgsData : USGSResponse) (noaaData : NOAAResponse) (owmKey : String)
      (options : GetAllOptions),
      ∃ l, getAllDisasters (.ok usgsData) (.ok noaaData) owmKey .fail options =
        .ok l) := by
  refine ⟨fun _ _ _ _ => rfl, fun _ _ _ _ => rfl, ?_⟩
  intro usgsData noaaData owmKey options
  obtain ⟨w, hw⟩ := weatherDataStep_never_rejects owmKey .fail
    options.latitude options.longitude
  refine ⟨geoFilterStep options.latitude options.longitude options.radius
    (alertTypesFilterStep options.alertTypes
      (typesFilterStep options.types
        (mapUSGSResponseToDisasters usgsData ++ mapNOAAResponseToDisasters noaaData ++ w))),
    ?_⟩
  simp only [getAllDisasters, fetchEarthquakeData, fetchWeatherAlerts]
  rw [hw]

/-! ## C5: zero-valued query parameters are treated as absent -/

/-- C5.  `getAllDisasters` tests its optional numeric parameters by JS
truthiness.  (i) If the query latitude or longitude is absent or exactly
0, the WeatherCondition adapter is not invoked and the geographic filter
is skipped even when a positive radius is supplied: the result is the
earthquake/alert concatenation filtered only by types and alertTypes.
(ii) A radius of exactly 0 behaves like an absent radius. -/
theorem getAllDisasters_zero_params_truthiness :
    (∀ (usgsResp : Upstream USGSResponse) (noaaResp : Upstream NOAAResponse)
      (owmKey : String) (owmResp : Upstream OWMOneCall)
      (types : Option (List DisasterType)) (alertTypes : Option (List AlertType))
      (timeRange : Option String) (lat lon radius : Option ℚ),
      truthyOptQ lat = false ∨ truthyOptQ lon = false →
      getAllDisasters usgsResp noaaResp owmKey owmResp
          ⟨types, alertTypes, timeRange, lat, lon, radius⟩ =
        match fetchEarthquakeData "1day" usgsResp, fetchWeatherAlerts noaaResp with
        | .ok earthquakes, .ok weatherAlerts =>
          .ok (alertTypesFilterStep alertTypes
            (typesFilterStep types (earthquakes ++ weatherAlerts)))
        | _, _ => .error "Failed to fetch disaster data") ∧
    (∀ (usgsResp : Upstream USGSResponse) (noaaResp : Upstream NOAAResponse)
      (owmKey : String) (owmResp : Upstream OWMOneCall)
      (types : Option (List DisasterType)) (alertTypes : Option (List AlertType))
      (timeRange : Option String) (lat lon : Option ℚ),
      getAllDisasters usgsResp noaaResp owmKey owmResp
          ⟨types, alertTypes, timeRange, lat, lon, some 0⟩ =
        getAllDisasters usgsResp noaaResp owmKey owmResp
          ⟨types, alertTypes, timeRange, lat, lon, none⟩) := by
  constructor
  · intro usgsResp noaaResp owmKey owmResp types alertTypes timeRange lat lon radius h
    have hand : (truthyOptQ lat && truthyOptQ lon) = false := by
      rcases h with h | h <;> simp [h]
    rcases usgsResp with u | _ <;> rcases noaaResp with n | _ <;>
      simp [getAllDisasters, fetchEarthquakeData, fetchWeatherAlerts, hand,
        geoFilterStep, Bool.and_eq_false_iff]
  · intro usgsResp noaaResp owmKey owmResp types alertTypes timeRange lat lon
    obtain ⟨w, hw⟩ := weatherDataStep_never_rejects owmKey owmResp lat lon
    rcases usgsResp with u | _ <;> rcases noaaResp with n | _ <;>
      simp [getAllDisasters, fetchEarthquakeData, fetchWeatherAlerts, hw,
        geoFilterStep, truthyOptQ, truthyQ]

/-- Witness for C5: with latitude exactly 0, a positive radius and an
earthquake in the feed, the result keeps the event (no geographic filter,
no WeatherCondition contribution), independently of the OpenWeatherMap
outcome. -/
theorem getAllDisasters_zero_params_truthiness_witness :
    getAllDisasters (.ok ⟨[usgsBoundaryFeature 5]⟩) (.ok ⟨[]⟩) "secret-key" .fail
        ⟨none, none, none, some 0, some 5, some 100⟩ =
      .ok [usgsFeatureToDisaster (usgsBoundaryFeature 5)] := by
  have h := (getAllDisasters_zero_params_truthiness).1 (.ok ⟨[usgsBoundaryFeature 5]⟩)
    (.ok ⟨[]⟩) "secret-key" .fail none none none (some 0) (some 5) (some 100)
    (Or.inl (by simp [truthyOptQ, truthyQ]))
  rw [h]
  simp [fetchEarthquakeData, fetchWeatherAlerts, mapUSGSResponseToDisasters,
    mapNOAAResponseToDisasters, typesFilterStep, alertTypesFilterStep]

/-! ## C10: Haversine distance metric properties -/

lemma arctan_nonneg_of_nonneg {t : ℝ} (ht : 0 ≤ t) : 0 ≤ Real.arctan t := by
  rw [← Real.arctan_zero]
  exact Real.arctan_strictMono.monotone ht

lemma atan2_nonneg (y x : ℝ) (hy : 0 ≤ y) (hx : 0 ≤ x) : 0 ≤ atan2 y x := by
  unfold atan2
  split_ifs with h1 h2 h3 h4 h5 <;>
    first
    | exact arctan_nonneg_of_nonneg (div_nonneg hy h1.le)
    | linarith [Real.pi_pos]

/-- C10.  For valid latitude/longitude pairs the Haversine distance is
zero on identical points, symmetric, and nonnegative. -/
theorem calculateDistance_metric_properties (lat1 lon1 lat2 lon2 : ℝ)
    (h1 : |lat1| ≤ 90) (h2 : |lon1| ≤ 180) (h3 : |lat2| ≤ 90) (h4 : |lon2| ≤ 180) :
    calculateDistance lat1 lon1 lat1 lon1 = 0 ∧
    calculateDistance lat1 lon1 lat2 lon2 = calculateDistance lat2 lon2 lat1 lon1 ∧
    0 ≤ calculateDistance lat1 lon1 lat2 lon2 := by
  refine ⟨?_, ?_, ?_⟩
  · norm_num [calculateDistance, atan2]
  · simp only [calculateDistance]
    have e1 : (lat1 - lat2) * Real.pi / 180 / 2 = -((lat2 - lat1) * Real.pi / 180 / 2) := by
      ring
    have e2 : (lon1 - lon2) * Real.pi / 180 / 2 = -((lon2 - lon1) * Real.pi / 180 / 2) := by
      ring
    have haux :
        Real.sin ((lat1 - lat2) * Real.pi / 180 / 2) *
            Real.sin ((lat1 - lat2) * Real.pi / 180 / 2) +
          Real.cos (lat2 * Real.pi / 180) * Real.cos (lat1 * Real.pi / 180) *
            Real.sin ((lon1 - lon2) * Real.pi / 180 / 2) *
            Real.sin ((lon1 - lon2) * Real.pi / 180 / 2) =
        Real.sin ((lat2 - lat1) * Real.pi / 180 / 2) *
            Real.sin ((lat2 - lat1) * Real.pi / 180 / 2) +
          Real.cos (lat1 * Real.pi / 180) * Real.cos (lat2 * Real.pi / 180) *
            Real.sin ((lon2 - lon1) * Real.pi / 180 / 2) *
            Real.sin ((lon2 - lon1) * Real.pi / 180 / 2) := by
      rw [e1, e2]
      simp only [Real.sin_neg]
      ring
    rw [haux]
  · simp only [calculateDistance]
    refine mul_nonneg (by norm_num) (mul_nonneg (by norm_num) ?_)
    exact atan2_nonneg _ _ (Real.sqrt_nonneg _) (Real.sqrt_nonneg _)

/-- Witness for C10 at the valid pairs (10,20) and (-30,40). -/
theorem calculateDistance_metric_properties_witness :
    calculateDistance 10 20 10 20 = 0 ∧
    calculateDistance 10 20 (-30) 40 = calculateDistance (-30) 40 10 20 ∧
    0 ≤ calculateDistance 10 20 (-30) 40 :=
  have h := calculateDistance_metric_properties 10 20 (-30) 40
    (by norm_num) (by norm_num) (by norm_num) (by norm_num)
  ⟨h.1, h.2.1, h.2.2⟩

/-! ## C4: geographic filtering in `getAllDisasters` -/


/-- C4 counterexample.  With the claim's query center (0, 0.1) — latitude
exactly 0 — and radius 10, the geographic filter is skipped entirely
(latitude 0 is falsy), so an event ~11.1 km away is retained rather than
excluded. -/
theorem getAllDisasters_zero_lat_geo_cex :
    getAllDisasters (.ok ⟨[exNearbyQuake]⟩) (.ok ⟨[]⟩) "" .fail
        ⟨none, none, none, some 0, some (1/10), some 10⟩ =
      .ok [usgsFeatureToDisaster exNearbyQuake] := by
  simp [getAllDisasters, fetchEarthquakeData, fetchWeatherAlerts,
    mapUSGSResponseToDisasters, mapNOAAResponseToDisasters, truthyOptQ,
    truthyQ, typesFilterStep, alertTypesFilterStep, geoFilterStep]

/-- C4 amended.  When latitude, longitude and radius are all truthy
(present and nonzero), `getAllDisasters` succeeds with exactly the
concatenated events that have both coordinates present and Haversine
distance at most the radius, preserving concatenation order. -/
theorem getAllDisasters_geo_filter (usgsData : USGSResponse)
    (noaaData : NOAAResponse) (owmKey : String) (owmResp : Upstream OWMOneCall)
    (timeRange : Option String) (lat lon radius : ℚ)
    (hlat : lat ≠ 0) (hlon : lon ≠ 0) (hrad : radius ≠ 0) :
    ∃ weatherData l,
      fetchWeatherOneCall owmKey owmResp lat lon = .ok weatherData ∧
      getAllDisasters (.ok usgsData) (.ok noaaData) owmKey owmResp
          ⟨none, none, timeRange, some lat, some lon, some radius⟩ = .ok l ∧
      (∀ d, d ∈ l ↔ d ∈ (mapUSGSResponseToDisasters usgsData ++
            mapNOAAResponseToDisasters noaaData ++ weatherData) ∧
          ∃ dlat dlon, d.latitude = some dlat ∧ d.longitude = some dlon ∧
            calculateDistance (lat : ℝ) (lon : ℝ) (dlat : ℝ) (dlon : ℝ) ≤ (radius : ℝ)) ∧
      l.Sublist (mapUSGSResponseToDisasters usgsData ++
        mapNOAAResponseToDisasters noaaData ++ weatherData) := by
  obtain ⟨w, hw⟩ := fetchWeatherOneCall_never_rejects owmKey owmResp lat lon
  have hltruthy : truthyOptQ (some lat) = true := by simp [truthyOptQ, truthyQ, hlat]
  have hlotruthy : truthyOptQ (some lon) = true := by simp [truthyOptQ, truthyQ, hlon]
  have hrtruthy : truthyOptQ (some radius) = true := by simp [truthyOptQ, truthyQ, hrad]
  have hpred : ∀ d : Disaster, withinRadiusCheck lat lon radius d = true ↔
      ∃ dlat dlon, d.latitude = some dlat ∧ d.longitude = some dlon ∧
        calculateDistance (lat : ℝ) (lon : ℝ) (dlat : ℝ) (dlon : ℝ) ≤ (radius : ℝ) := by
    intro d
    unfold withinRadiusCheck
    cases hla : d.latitude with
    | none => simp
    | some dlat =>
      cases hlo : d.longitude with
      | none => simp
      | some dlon => simp
  refine ⟨w, (mapUSGSResponseToDisasters usgsData ++ mapNOAAResponseToDisasters noaaData
      ++ w).filter (withinRadiusCheck lat lon radius), hw, ?_, ?_, ?_⟩
  · simp [getAllDisasters, fetchEarthquakeData, fetchWeatherAlerts, hw,
      hltruthy, hlotruthy, hrtruthy, typesFilterStep, alertTypesFilterStep,
      geoFilterStep]
  · intro d
    rw [List.mem_filter, hpred d]
  · exact List.filter_sublist _

lemma calculateDistance_meridian_tenth :
    calculateDistance (1/10 : ℝ) (1/5) 0 (1/5) = 6371 * Real.pi / 1800 := by
  have hpi := Real.pi_pos
  simp only [calculateDistance]
  have e1 : ((0:ℝ) - 1/10) * Real.pi / 180 / 2 = -(Real.pi / 3600) := by ring
  have e2 : ((1:ℝ)/5 - 1/5) * Real.pi / 180 / 2 = 0 := by ring
  rw [e1, e2, Real.sin_neg, Real.sin_zero]
  have ha : -Real.sin (Real.pi / 3600) * -Real.sin (Real.pi / 3600) +
      Real.cos (1/10 * Real.pi / 180) * Real.cos (0 * Real.pi / 180) * 0 * 0 =
      Real.sin (Real.pi / 3600) * Real.sin (Real.pi / 3600) := by ring
  rw [ha]
  have hsin_nonneg : 0 ≤ Real.sin (Real.pi / 3600) :=
    Real.sin_nonneg_of_nonneg_of_le_pi (by positivity) (by linarith)
  rw [Real.sqrt_mul_self hsin_nonneg]
  have hcos_sq : 1 - Real.sin (Real.pi / 3600) * Real.sin (Real.pi / 3600) =
      Real.cos (Real.pi / 3600) * Real.cos (Real.pi / 3600) := by
    have h := Real.sin_sq_add_cos_sq (Real.pi / 3600)
    nlinarith [h]
  rw [hcos_sq]
  have hcos_pos : 0 < Real.cos (Real.pi / 3600) :=
    Real.cos_pos_of_mem_Ioo ⟨by linarith, by linarith⟩
  rw [Real.sqrt_mul_self hcos_pos.le]
  rw [atan2, if_pos hcos_pos, ← Real.tan_eq_sin_div_cos,
    Real.arctan_tan (by linarith) (by linarith)]
  ring

lemma meridian_tenth_gt_ten : (10 : ℝ) < 6371 * Real.pi / 1800 := by
  nlinarith [Real.pi_gt_three]

lemma meridian_tenth_le_fifteen : 6371 * Real.pi / 1800 ≤ (15 : ℝ) := by
  nlinarith [Real.pi_lt_d2]

/-- Witness for C4 amended: with the truthy query center (0.1, 0.2) and the
event at (0, 0.2) (~11.1 km due south), radius 10 excludes the event and
radius 15 includes it. -/
theorem getAllDisasters_geo_filter_witness :
    (∃ l, getAllDisasters (.ok ⟨[exNearbyQuake]⟩) (.ok ⟨[]⟩) "" .fail
        ⟨none, none, none, some (1/10), some (1/5), some 10⟩ = .ok l ∧
      usgsFeatureToDisaster exNearbyQuake ∉ l) ∧
    (∃ l, getAllDisasters (.ok ⟨[exNearbyQuake]⟩) (.ok ⟨[]⟩) "" .fail
        ⟨none, none, none, some (1/10), some (1/5), some 15⟩ = .ok l ∧
      usgsFeatureToDisaster exNearbyQuake ∈ l) := by
  have hmem : usgsFeatureToDisaster exNearbyQuake ∈
      mapUSGSResponseToDisasters ⟨[exNearbyQuake]⟩ ++
        mapNOAAResponseToDisasters ⟨[]⟩ ++ [] := by
    simp [mapUSGSResponseToDisasters, mapNOAAResponseToDisasters]
  have hcoords : (usgsFeatureToDisaster exNearbyQuake).latitude = some 0 ∧
      (usgsFeatureToDisaster exNearbyQuake).longitude = some (1/5) := by
    exact ⟨rfl, rfl⟩
  have hdist : calculateDistance (((1:ℚ)/10 : ℚ) : ℝ) (((1:ℚ)/5 : ℚ) : ℝ)
      (((0:ℚ) : ℚ) : ℝ) (((1:ℚ)/5 : ℚ) : ℝ) = 6371 * Real.pi / 1800 := by
    push_cast
    exact calculateDistance_meridian_tenth
  constructor
  · obtain ⟨w, l, hw, hres, hiff, hsub⟩ := getAllDisasters_geo_filter
      ⟨[exNearbyQuake]⟩ ⟨[]⟩ "" .fail none (1/10) (1/5) 10
      (by norm_num) (by norm_num) (by norm_num)
    have hwq : w = [] := by
      have : fetchWeatherOneCall "" (Upstream.fail (α := OWMOneCall)) (1/10) (1/5) =
          .ok [] := rfl
      rw [this] at hw
      exact (Except.ok.injEq _ _).mp hw.symm
    refine ⟨l, hres, ?_⟩
    intro hmem2
    have h2 := (hiff _).mp hmem2
    obtain ⟨_, dlat, dlon, hla, hlo, hle⟩ := h2
    rw [hcoords.1] at hla
    rw [hcoords.2] at hlo
    obtain rfl : dlat = 0 := by injection hla with h; exact h.symm
    obtain rfl : dlon = 1/5 := by injection hlo with h; exact h.symm
    rw [hdist] at hle
    have h10 : ((10 : ℚ) : ℝ) = (10 : ℝ) := by norm_num
    rw [h10] at hle
    linarith [meridian_tenth_gt_ten]
  · obtain ⟨w, l, hw, hres, hiff, hsub⟩ := getAllDisasters_geo_filter
      ⟨[exNearbyQuake]⟩ ⟨[]⟩ "" .fail none (1/10) (1/5) 15
      (by norm_num) (by norm_num) (by norm_num)
    have hwq : w = [] := by
      have : fetchWeatherOneCall "" (Upstream.fail (α := OWMOneCall)) (1/10) (1/5) =
          .ok [] := rfl
      rw [this] at hw
      exact (Except.ok.injEq _ _).mp hw.symm
    refine ⟨l, hres, ?_⟩
    refine (hiff _).mpr ⟨?_, 0, 1/5, hcoords.1, hcoords.2, ?_⟩
    · rw [hwq]
      exact hmem
    · rw [hdist]
      have h15 : ((15 : ℚ) : ℝ) = (15 : ℝ) := by norm_num
      rw [h15]
      exact meridian_tenth_le_fifteen

end DisasterSentinel
